import Mathlib

/-!
Shallow embedding of the CRPL rhythm detector (src/crpl/detector.py and
src/crpl/types.py): the event data model, the session state machine, and the
event-to-profile analysis pipeline.  Timestamps and float arithmetic are
modelled over the rationals; the one genuinely irrational operation,
math.sqrt inside the consistency estimator, is modelled with Real.sqrt, so
consistency and the fluency score are real-valued.
-/

/-- A single keystroke event (types.py, TypingEvent). -/
structure TypingEvent where
  event_type : String
  char : String
  timestamp : ℚ
deriving DecidableEq

/-- The pause_pattern object built by RhythmDetector._analyze_pauses. -/
structure PauseInfo where
  short_pauses : ℕ
  medium_pauses : ℕ
  long_pauses : ℕ
  pattern : String
deriving DecidableEq

/-- One deletion pattern record emitted by _analyze_deletions. -/
structure DeletionPattern where
  type : String
  length : ℕ
deriving DecidableEq

/-- One burst segment record emitted by _detect_bursts. -/
structure BurstSegment where
  start : ℕ
  length : ℕ
  avg_speed : ℚ
deriving DecidableEq

/-- One hesitation record emitted by _map_hesitations. -/
structure Hesitation where
  location : ℕ
  duration : ℚ
  severity : String
deriving DecidableEq

/-- One entry of the typing_trajectory list. -/
structure TrajectoryPoint where
  type : String
  char : String
  time : ℚ
deriving DecidableEq

/-- The text_rhythm object built by _analyze_text_rhythm. -/
structure TextRhythm where
  sentence_count : ℕ
  avg_sentence_length : ℚ
  punctuation_rate : ℚ
  rhythm_category : String
deriving DecidableEq

/-- The 24-field analysis result dictionary (plus keystroke_ratio) returned by
finish_monitoring.  consistency and fluency_score are real-valued because the
consistency estimator uses a square root. -/
structure Profile where
  timestamp : String
  duration_seconds : ℚ
  chars_per_minute : ℚ
  pause_pattern : PauseInfo
  consistency : ℝ
  text_rhythm : TextRhythm
  rhythm_type : String
  total_keystrokes : ℕ
  actual_chars : ℕ
  avg_interval : ℚ
  deletion_count : ℕ
  deletion_ratio : ℚ
  deletion_patterns : List DeletionPattern
  modification_count : ℕ
  modifications : List Unit
  burst_count : ℕ
  burst_segments : List BurstSegment
  max_burst_speed : ℚ
  hesitation_count : ℕ
  hesitation_locations : List ℕ
  hesitations : List Hesitation
  fluency_score : ℝ
  fluency_level : String
  typing_trajectory : List TrajectoryPoint
  keystroke_ratio : ℚ

/-- The mutable detector state: event log, monitoring flag, session start time
(None until the first start_monitoring). -/
structure RhythmDetector where
  events : List TypingEvent
  is_monitoring : Bool
  start_time : Option ℚ
deriving DecidableEq

/-- Python's round applied to an exact rational/real value: round half to even. -/
def pyRoundInt {α : Type} [LinearOrderedField α] [FloorRing α] (x : α) : ℤ :=
  let f := ⌊x⌋
  if x - f < 1 / 2 then f
  else if 1 / 2 < x - f then f + 1
  else if f % 2 = 0 then f else f + 1

/-- Python's round(x, n): round x to n decimal places, ties to even. -/
def roundTo {α : Type} [LinearOrderedField α] [FloorRing α] (n : ℕ) (x : α) : α :=
  (pyRoundInt (x * 10 ^ n) : α) / 10 ^ n

namespace RhythmDetector

/-- Threshold constant SHORT_PAUSE_MIN (seconds). -/
def SHORT_PAUSE_MIN : ℚ := 2
/-- Threshold constant SHORT_PAUSE_MAX (seconds). -/
def SHORT_PAUSE_MAX : ℚ := 5
/-- Threshold constant MEDIUM_PAUSE_MIN (seconds). -/
def MEDIUM_PAUSE_MIN : ℚ := 5
/-- Threshold constant MEDIUM_PAUSE_MAX (seconds). -/
def MEDIUM_PAUSE_MAX : ℚ := 15
/-- Threshold constant LONG_PAUSE_MIN (seconds). -/
def LONG_PAUSE_MIN : ℚ := 15
/-- Threshold constant HESITATION_THRESHOLD (seconds). -/
def HESITATION_THRESHOLD : ℚ := 3
/-- Threshold constant BURST_INTERVAL_MAX (150 ms). -/
def BURST_INTERVAL_MAX : ℚ := 15 / 100
/-- Threshold constant BURST_MIN_LENGTH (keystrokes). -/
def BURST_MIN_LENGTH : ℕ := 5

/-- start_monitoring: reset the event log, set the flag, record the start time
(the current clock value is passed in explicitly). -/
def start_monitoring (_d : RhythmDetector) (t : ℚ) : RhythmDetector :=
  { events := [], is_monitoring := true, start_time := some t }

/-- record_keystroke: append an event stamped with the current time if
monitoring, otherwise a silent no-op. -/
def record_keystroke (d : RhythmDetector) (char : String) (event_type : String)
    (t : ℚ) : RhythmDetector :=
  if d.is_monitoring then
    { d with events := d.events ++ [⟨event_type, char, t⟩] }
  else d

/-- The event-type filter used for interval extraction in _analyze. -/
def isTypeEvent (e : TypingEvent) : Bool :=
  e.event_type ∈ ["type", "composition", "composition_confirm"]

/-- Consecutive timestamp deltas of a filtered event list (_analyze lines
126-129). -/
def computeIntervals : List TypingEvent → List ℚ
  | [] => []
  | [_] => []
  | a :: b :: rest => (b.timestamp - a.timestamp) :: computeIntervals (b :: rest)

/-- _calculate_consistency: coefficient-of-variation based score, 0 for fewer
than two intervals or zero mean, otherwise clamp(1 - cv/2, 0, 1) with the
population standard deviation. -/
noncomputable def _calculate_consistency (intervals : List ℚ) : ℝ :=
  if intervals.length < 2 then 0
  else
    let mean : ℚ := intervals.sum / intervals.length
    if mean = 0 then 0
    else
      let variance : ℚ := ((intervals.map (fun x => (x - mean) ^ 2)).sum) / intervals.length
      let std_dev : ℝ := Real.sqrt (variance : ℝ)
      let cv : ℝ := std_dev / (mean : ℝ)
      max 0 (min 1 (1 - cv / 2))

/-- _analyze_pauses: bucket counts and the priority-selected pattern label. -/
def _analyze_pauses (intervals : List ℚ) : PauseInfo :=
  let short_pauses := intervals.countP (fun i => decide (SHORT_PAUSE_MIN ≤ i ∧ i < SHORT_PAUSE_MAX))
  let medium_pauses := intervals.countP (fun i => decide (MEDIUM_PAUSE_MIN ≤ i ∧ i < MEDIUM_PAUSE_MAX))
  let long_pauses := intervals.countP (fun i => decide (LONG_PAUSE_MIN ≤ i))
  let pattern :=
    if long_pauses > 0 then "contemplative"
    else if medium_pauses > 0 then "thoughtful"
    else if short_pauses > 0 then "choppy"
    else "continuous"
  ⟨short_pauses, medium_pauses, long_pauses, pattern⟩

/-- Membership in the deletion-count event-type set of _analyze_deletions. -/
def isDeletionCounted (e : TypingEvent) : Bool :=
  e.event_type ∈ ["backspace", "delete", "composition_delete"]

/-- Membership in the run-scan event-type set of _analyze_deletions. -/
def isRunDeletion (e : TypingEvent) : Bool :=
  e.event_type ∈ ["backspace", "delete"]

/-- The pattern-scan loop of _analyze_deletions: accumulate the current run
length, flush a record on a closing event when the run has length at least 3,
and return the accumulator (with no flush) at the end of the log. -/
def deletionScan (acc : List DeletionPattern) (consecutive : ℕ) :
    List TypingEvent → List DeletionPattern
  | [] => acc
  | e :: rest =>
    if isRunDeletion e then deletionScan acc (consecutive + 1) rest
    else
      deletionScan
        (acc ++ if consecutive ≥ 3 then [⟨"consecutive", consecutive⟩] else [])
        0 rest

/-- _analyze_deletions: (deletion_count, deletion_ratio, deletion_patterns). -/
def _analyze_deletions (events : List TypingEvent) : ℕ × ℚ × List DeletionPattern :=
  let deletion_count := (events.filter isDeletionCounted).length
  let deletion_ratio : ℚ :=
    if events = [] then 0 else (deletion_count : ℚ) / (events.length : ℚ)
  (deletion_count, deletion_ratio, deletionScan [] 0 events)

/-- _analyze_modifications: count of selection events and the reserved empty
detail list. -/
def _analyze_modifications (events : List TypingEvent) : ℕ × List Unit :=
  ((events.filter (fun e => e.event_type = "selection")).length, [])

/-- Python's max over the avg_speed fields with default 0 (_detect_bursts
line 323). -/
def maxSpeed (bursts : List BurstSegment) : ℚ :=
  match bursts.map (fun b => b.avg_speed) with
  | [] => 0
  | s :: ss => ss.foldl max s

/-- The scan loop of _detect_bursts: the accumulator holds emitted segments,
the current burst length, its cumulative time, the recorded start index, and
the running interval index.  avg_speed is rounded to 1 decimal place at
emission, as in the source. -/
def burstScan (acc : List BurstSegment) (len : ℕ) (time : ℚ) (start : ℕ)
    (i : ℕ) : List ℚ → List BurstSegment
  | [] =>
    acc ++ if len ≥ BURST_MIN_LENGTH then
      [⟨start, len, roundTo 1 (if time > 0 then (len : ℚ) / time else 0)⟩] else []
  | interval :: rest =>
    if interval < BURST_INTERVAL_MAX then
      burstScan acc (len + 1) (time + interval) (if len = 0 then i else start)
        (i + 1) rest
    else
      burstScan
        (acc ++ if len ≥ BURST_MIN_LENGTH then
          [⟨start, len, roundTo 1 (if time > 0 then (len : ℚ) / time else 0)⟩] else [])
        0 0 start (i + 1) rest

/-- _detect_bursts: (burst_count, burst_segments, max_burst_speed). -/
def _detect_bursts (intervals : List ℚ) : ℕ × List BurstSegment × ℚ :=
  let bursts := burstScan [] 0 0 0 0 intervals
  (bursts.length, bursts, maxSpeed bursts)

/-- The scan loop of _map_hesitations: every interval at or above the 3 s
threshold yields a record whose duration is rounded to 2 decimal places at
emission, as in the source. -/
def hesitationScan (i : ℕ) : List ℚ → List Hesitation
  | [] => []
  | interval :: rest =>
    (if interval ≥ HESITATION_THRESHOLD then
      [⟨i, roundTo 2 interval,
        if interval ≥ 10 then "very_long" else if interval ≥ 5 then "long" else "medium"⟩]
    else []) ++ hesitationScan (i + 1) rest

/-- _map_hesitations: (hesitation_count, hesitation_locations, hesitations).
The source appends to the locations list exactly when it appends a record, so
the locations list is the location field of each record in order. -/
def _map_hesitations (intervals : List ℚ) : ℕ × List ℕ × List Hesitation :=
  let hs := hesitationScan 0 intervals
  (hs.length, hs.map (fun h => h.location), hs)

/-- _calculate_fluency: the weighted composite score and its level label. -/
noncomputable def _calculate_fluency (consistency : ℝ) (deletion_ratio : ℚ)
    (pause_pattern : PauseInfo) (hesitation_count : ℕ) : ℝ × String :=
  let stability_score : ℝ := consistency
  let deletion_score : ℚ := max 0 (1 - deletion_ratio * 2)
  let pause_penalty : ℚ :=
    ((pause_pattern.short_pauses : ℚ) + (pause_pattern.medium_pauses : ℚ) * 2 +
      (pause_pattern.long_pauses : ℚ) * 3) / 10
  let pause_score : ℚ := max 0 (1 - pause_penalty)
  let hesitation_score : ℚ := max 0 (1 - (hesitation_count : ℚ) / 5)
  let fluency_score : ℝ :=
    0.30 * stability_score + 0.30 * (deletion_score : ℝ) +
      0.20 * (pause_score : ℝ) + 0.20 * (hesitation_score : ℝ)
  let level :=
    if fluency_score ≥ 0.8 then "very_fluent"
    else if fluency_score ≥ 0.6 then "fluent"
    else if fluency_score ≥ 0.4 then "normal"
    else "hesitant"
  (fluency_score, level)

/-- _classify_rhythm_type: the three-band decision table over cpm,
consistency, and the pause-pattern label. -/
noncomputable def _classify_rhythm_type (cpm : ℚ) (consistency : ℝ)
    (pause_pattern : String) : String :=
  if cpm > 120 then
    if consistency > 0.7 then
      if pause_pattern = "continuous" then "steady_fast" else "burst_fast"
    else "erratic_fast"
  else if cpm < 60 then
    if consistency > 0.7 then "steady_slow"
    else if pause_pattern = "thoughtful" ∨ pause_pattern = "contemplative" then "hesitant"
    else "labored"
  else
    if consistency > 0.7 then "fluid"
    else if pause_pattern = "thoughtful" then "measured"
    else "uneven"

/-- The sentence-terminal punctuation characters of the re.split pattern in
_analyze_text_rhythm. -/
def sentenceTerminators : List Char := ['.', '!', '?', '。', '！', '？']

/-- The punctuation characters counted by the re.findall pattern in
_analyze_text_rhythm. -/
def punctuationChars : List Char :=
  ['.', ',', '!', '?', ';', ':', '，', '。', '！', '？', '；', '：', '～', '~']

/-- Python whitespace stripped by str.strip(). -/
def isPySpace (c : Char) : Bool :=
  c = ' ' ∨ c = '\t' ∨ c = '\n' ∨ c = '\r' ∨ c = '\x0b' ∨ c = '\x0c'

/-- str.strip(): drop leading and trailing whitespace. -/
def pyStrip (s : List Char) : List Char :=
  ((s.dropWhile isPySpace).reverse.dropWhile isPySpace).reverse

/-- Split a character list at every separator character.  re.split in the
source splits on runs of separators, which differs from per-character
splitting only by extra empty fragments; the caller strips fragments and
drops the empty ones, so the surviving fragments coincide. -/
def splitOnChars (seps : List Char) : List Char → List (List Char)
  | [] => [[]]
  | c :: rest =>
    match splitOnChars seps rest with
    | [] => [[c]]
    | g :: gs => if c ∈ seps then [] :: g :: gs else (c :: g) :: gs

/-- The stripped, non-empty sentence fragments of the text. -/
def sentencesOf (text : String) : List (List Char) :=
  ((splitOnChars sentenceTerminators text.toList).map pyStrip).filter (fun s => s ≠ [])

/-- The sentence count: number of surviving fragments, defaulting to 1. -/
def sentenceCountOf (text : String) : ℕ :=
  if (sentencesOf text).length = 0 then 1 else (sentencesOf text).length

/-- Full-precision average sentence length, len(text)/sentence_count. -/
def avgSentenceLengthOf (text : String) : ℚ :=
  (text.toList.length : ℚ) / (sentenceCountOf text : ℚ)

/-- Full-precision punctuation rate, punctuation count / len(text), 0 for
empty text. -/
def punctuationRateOf (text : String) : ℚ :=
  if text.toList = [] then 0
  else ((text.toList.filter (fun c => c ∈ punctuationChars)).length : ℚ) /
    (text.toList.length : ℚ)

/-- _analyze_text_rhythm: sentence statistics, punctuation rate, and the
category chain; avg_sentence_length and punctuation_rate are rounded here,
inside the analyzer, as in the source. -/
def _analyze_text_rhythm (text : String) : TextRhythm :=
  let sentence_count := sentenceCountOf text
  let avg_sentence_length : ℚ := avgSentenceLengthOf text
  let punctuation_rate : ℚ := punctuationRateOf text
  let category :=
    if avg_sentence_length < 20 ∧ punctuation_rate < 5 / 100 then "concise"
    else if avg_sentence_length < 20 ∧ punctuation_rate ≥ 5 / 100 then "staccato"
    else if avg_sentence_length ≥ 50 ∧ punctuation_rate < 5 / 100 then "flowing"
    else if avg_sentence_length ≥ 50 ∧ punctuation_rate ≥ 8 / 100 then "complex"
    else if punctuation_rate ≥ 8 / 100 then "punctuated"
    else "balanced"
  ⟨sentence_count, roundTo 1 avg_sentence_length, roundTo 3 punctuation_rate, category⟩

/-- _analyze: the full pipeline over (event log, start time, final text, end
time); the `now` argument stands for datetime.now().isoformat(), the ambient
wall-clock string written into the timestamp field. -/
noncomputable def _analyze (events : List TypingEvent) (start_time : ℚ)
    (final_text : String) (end_time : ℚ) (now : String) : Profile :=
  let duration := end_time - start_time
  let total_keystrokes := events.length
  let actual_chars := final_text.length
  let type_events := events.filter isTypeEvent
  let intervals := computeIntervals type_events
  let avg_interval : ℚ :=
    if intervals = [] then 0 else intervals.sum / (intervals.length : ℚ)
  let cpm : ℚ := if duration > 0 then (actual_chars : ℚ) / duration * 60 else 0
  let consistency := _calculate_consistency intervals
  let pause_pattern := _analyze_pauses intervals
  let del := _analyze_deletions events
  let mods := _analyze_modifications events
  let bursts := _detect_bursts intervals
  let hes := _map_hesitations intervals
  let fluency := _calculate_fluency consistency del.2.1 pause_pattern hes.1
  let rhythm_type := _classify_rhythm_type cpm consistency pause_pattern.pattern
  let text_rhythm := _analyze_text_rhythm final_text
  let keystroke_ratio : ℚ :=
    if actual_chars > 0 then (total_keystrokes : ℚ) / (actual_chars : ℚ) else 0
  { timestamp := now
    duration_seconds := roundTo 2 duration
    chars_per_minute := roundTo 1 cpm
    pause_pattern := pause_pattern
    consistency := roundTo 3 consistency
    text_rhythm := text_rhythm
    rhythm_type := rhythm_type
    total_keystrokes := total_keystrokes
    actual_chars := actual_chars
    avg_interval := roundTo 3 avg_interval
    deletion_count := del.1
    deletion_ratio := roundTo 3 del.2.1
    deletion_patterns := del.2.2
    modification_count := mods.1
    modifications := mods.2
    burst_count := bursts.1
    burst_segments := bursts.2.1
    max_burst_speed := roundTo 1 bursts.2.2
    hesitation_count := hes.1
    hesitation_locations := hes.2.1
    hesitations := hes.2.2
    fluency_score := roundTo 3 fluency.1
    fluency_level := fluency.2
    typing_trajectory := events.map (fun e => ⟨e.event_type, e.char, e.timestamp⟩)
    keystroke_ratio := roundTo 2 keystroke_ratio }

/-- _empty_result: the fixed default Profile of an empty or never-started
session; only the timestamp field carries the ambient clock. -/
def _empty_result (now : String) : Profile :=
  { timestamp := now
    duration_seconds := 0
    chars_per_minute := 0
    pause_pattern := ⟨0, 0, 0, "continuous"⟩
    consistency := 0
    text_rhythm := ⟨0, 0, 0, "balanced"⟩
    rhythm_type := "balanced"
    total_keystrokes := 0
    actual_chars := 0
    avg_interval := 0
    deletion_count := 0
    deletion_ratio := 0
    deletion_patterns := []
    modification_count := 0
    modifications := []
    burst_count := 0
    burst_segments := []
    max_burst_speed := 0
    hesitation_count := 0
    hesitation_locations := []
    hesitations := []
    fluency_score := 0
    fluency_level := "normal"
    typing_trajectory := []
    keystroke_ratio := 0 }

/-- finish_monitoring: clear the monitoring flag, and return the empty
Profile when the event log is empty or the start time is falsy (None or 0,
Python truthiness), otherwise the full analysis.  The end time and the
wall-clock string are the ambient clock readings at the call. -/
noncomputable def finish_monitoring (d : RhythmDetector) (final_text : String)
    (end_time : ℚ) (now : String) : Profile × RhythmDetector :=
  let d2 := { d with is_monitoring := false }
  match d.events, d.start_time with
  | [], _ => (_empty_result now, d2)
  | _ :: _, none => (_empty_result now, d2)
  | _ :: _, some st =>
    if st = 0 then (_empty_result now, d2)
    else (_analyze d.events st final_text end_time now, d2)

/-- Burst-scan loop as spec §4.6/§4.11 describes it, with avg_speed kept at
full precision (no rounding before assembly); for comparison with burstScan. -/
def burstScanFull (acc : List BurstSegment) (len : ℕ) (time : ℚ) (start : ℕ)
    (i : ℕ) : List ℚ → List BurstSegment
  | [] =>
    acc ++ if len ≥ BURST_MIN_LENGTH then
      [⟨start, len, if time > 0 then (len : ℚ) / time else 0⟩] else []
  | interval :: rest =>
    if interval < BURST_INTERVAL_MAX then
      burstScanFull acc (len + 1) (time + interval) (if len = 0 then i else start)
        (i + 1) rest
    else
      burstScanFull
        (acc ++ if len ≥ BURST_MIN_LENGTH then
          [⟨start, len, if time > 0 then (len : ℚ) / time else 0⟩] else [])
        0 0 start (i + 1) rest

/-- Burst detection as spec §4.11 claims it: segments carry full-precision
avg_speed, and the maximum is taken over the full-precision speeds. -/
def detect_bursts_fullprec (intervals : List ℚ) : ℕ × List BurstSegment × ℚ :=
  let bursts := burstScanFull [] 0 0 0 0 intervals
  (bursts.length, bursts, maxSpeed bursts)

/-- Round only the avg_speed field of a burst segment to 1 decimal place. -/
def roundSeg (s : BurstSegment) : BurstSegment :=
  ⟨s.start, s.length, roundTo 1 s.avg_speed⟩

/-- Hesitation-scan loop as spec §4.11 claims it, with the duration kept at
full precision; for comparison with hesitationScan. -/
def hesitationScanFull (i : ℕ) : List ℚ → List Hesitation
  | [] => []
  | interval :: rest =>
    (if interval ≥ HESITATION_THRESHOLD then
      [⟨i, interval,
        if interval ≥ 10 then "very_long" else if interval ≥ 5 then "long" else "medium"⟩]
    else []) ++ hesitationScanFull (i + 1) rest

/-- Round only the duration field of a hesitation record to 2 decimal places. -/
def roundHes (h : Hesitation) : Hesitation := ⟨h.location, roundTo 2 h.duration, h.severity⟩

/-- The lengths of the runs of consecutive backspace/delete events that are
closed by a later non-deletion event, in order; the argument k is the length
of the run in progress.  A run still open at the end of the log yields
nothing.  This is the amended reading of spec §4.5 against which the source
scan is compared. -/
def closedDeletionRuns (k : ℕ) : List TypingEvent → List ℕ
  | [] => []
  | e :: rest =>
    if isRunDeletion e then closedDeletionRuns (k + 1) rest
    else (if k > 0 then [k] else []) ++ closedDeletionRuns 0 rest

/-- A profile with its timestamp field blanked, to state that every other
field is a pure function of (events, start time, end time, final text). -/
def stripTimestamp (p : Profile) : Profile := { p with timestamp := "" }

end RhythmDetector

open RhythmDetector

/-- The source pattern scan emits, in order, exactly the closed runs of length
at least 3: runs still open at the end of the log are never emitted. -/
theorem deletionScan_eq_closedRuns (events : List TypingEvent) :
    ∀ (acc : List DeletionPattern) (k : ℕ),
      deletionScan acc k events =
        acc ++ ((closedDeletionRuns k events).filter (fun n => decide (3 ≤ n))).map
          (fun n => (⟨"consecutive", n⟩ : DeletionPattern)) := by
  induction events with
  | nil => intro acc k; simp [deletionScan, closedDeletionRuns]
  | cons e rest ih =>
    intro acc k
    by_cases h : isRunDeletion e
    · have step : deletionScan acc k (e :: rest) = deletionScan acc (k + 1) rest := by
        simp [deletionScan, h]
      have step2 : closedDeletionRuns k (e :: rest) = closedDeletionRuns (k + 1) rest := by
        simp [closedDeletionRuns, h]
      rw [step, step2, ih]
    · have step : deletionScan acc k (e :: rest) =
          deletionScan (acc ++ if k ≥ 3 then [⟨"consecutive", k⟩] else []) 0 rest := by
        simp [deletionScan, h]
      have step2 : closedDeletionRuns k (e :: rest) =
          (if k > 0 then [k] else []) ++ closedDeletionRuns 0 rest := by
        simp [closedDeletionRuns, h]
      rw [step, step2, ih, List.filter_append, List.map_append, List.append_assoc]
      congr 1
      congr 1
      by_cases h3 : 3 ≤ k
      · have hk : k > 0 := by omega
        simp [h3, hk]
      · by_cases hk : k > 0
        · simp [h3, hk]
        · have hz : k = 0 := by omega
          simp [hz]

/-- Prefixing the accumulator commutes with the burst scan. -/
theorem burstScan_append (ints : List ℚ) :
    ∀ (acc : List BurstSegment) (len : ℕ) (time : ℚ) (start i : ℕ),
      burstScan acc len time start i ints = acc ++ burstScan [] len time start i ints := by
  induction ints with
  | nil => intro acc len time start i; simp [burstScan]
  | cons interval rest ih =>
    intro acc len time start i
    by_cases h : interval < BURST_INTERVAL_MAX
    · simp only [burstScan, h, if_pos]
      exact ih acc (len + 1) (time + interval) (if len = 0 then i else start) (i + 1)
    · simp only [burstScan, h, if_neg, not_false_iff]
      rw [ih, ih (([] : List BurstSegment) ++ _), List.nil_append, List.append_assoc]

/-- Prefixing the accumulator commutes with the full-precision burst scan. -/
theorem burstScanFull_append (ints : List ℚ) :
    ∀ (acc : List BurstSegment) (len : ℕ) (time : ℚ) (start i : ℕ),
      burstScanFull acc len time start i ints =
        acc ++ burstScanFull [] len time start i ints := by
  induction ints with
  | nil => intro acc len time start i; simp [burstScanFull]
  | cons interval rest ih =>
    intro acc len time start i
    by_cases h : interval < BURST_INTERVAL_MAX
    · simp only [burstScanFull, h, if_pos]
      exact ih acc (len + 1) (time + interval) (if len = 0 then i else start) (i + 1)
    · simp only [burstScanFull, h, if_neg, not_false_iff]
      rw [ih, ih (([] : List BurstSegment) ++ _), List.nil_append, List.append_assoc]

/-- The source burst scan is the full-precision scan with each emitted
segment's avg_speed rounded to 1 decimal place. -/
theorem burstScan_eq_full_map (ints : List ℚ) :
    ∀ (len : ℕ) (time : ℚ) (start i : ℕ),
      burstScan [] len time start i ints =
        (burstScanFull [] len time start i ints).map roundSeg := by
  induction ints with
  | nil =>
    intro len time start i
    by_cases hl : len ≥ BURST_MIN_LENGTH <;> simp [burstScan, burstScanFull, hl, roundSeg]
  | cons interval rest ih =>
    intro len time start i
    by_cases h : interval < BURST_INTERVAL_MAX
    · simp only [burstScan, burstScanFull, h, if_pos]
      exact ih (len + 1) (time + interval) (if len = 0 then i else start) (i + 1)
    · simp only [burstScan, burstScanFull, h, if_neg, not_false_iff, List.nil_append]
      rw [burstScan_append, burstScanFull_append, ih, List.map_append]
      congr 1
      by_cases hl : len ≥ BURST_MIN_LENGTH <;> simp [hl, roundSeg]

/-- Every emitted burst segment has length at least BURST_MIN_LENGTH. -/
theorem burstScan_min_length (ints : List ℚ) :
    ∀ (len : ℕ) (time : ℚ) (start i : ℕ) (s : BurstSegment),
      s ∈ burstScan [] len time start i ints → BURST_MIN_LENGTH ≤ s.length := by
  induction ints with
  | nil =>
    intro len time start i s hs
    by_cases hl : len ≥ BURST_MIN_LENGTH
    · simp [burstScan, hl] at hs
      rw [hs]
      exact hl
    · simp [burstScan, hl] at hs
  | cons interval rest ih =>
    intro len time start i s hs
    by_cases h : interval < BURST_INTERVAL_MAX
    · simp only [burstScan, h, if_pos] at hs
      exact ih _ _ _ _ s hs
    · simp only [burstScan, h, if_neg, not_false_iff, List.nil_append] at hs
      rw [burstScan_append] at hs
      rcases List.mem_append.mp hs with hmem | hmem
      · by_cases hl : len ≥ BURST_MIN_LENGTH
        · simp [hl] at hmem
          rw [hmem]
          exact hl
        · simp [hl] at hmem
      · exact ih _ _ _ _ s hmem

/-- The source hesitation scan is the full-precision scan with each record's
duration rounded to 2 decimal places. -/
theorem hesitationScan_eq_full_map (ints : List ℚ) :
    ∀ i : ℕ, hesitationScan i ints = (hesitationScanFull i ints).map roundHes := by
  induction ints with
  | nil => intro i; simp [hesitationScan, hesitationScanFull]
  | cons interval rest ih =>
    intro i
    by_cases h : interval ≥ HESITATION_THRESHOLD <;>
      simp [hesitationScan, hesitationScanFull, h, roundHes, ih]

/-- C1: finish_monitoring on an empty event log or a never-started session
returns the fixed empty default Profile — every count and numeric field 0,
pattern continuous, rhythm_category balanced, rhythm_type balanced,
fluency_level normal, every list empty — independently of final_text. -/
theorem C1_empty_profile (d : RhythmDetector) (t1 t2 : String) (et : ℚ) (now : String)
    (h : d.events = [] ∨ d.start_time = none) :
    (finish_monitoring d t1 et now).1 = _empty_result now ∧
    finish_monitoring d t1 et now = finish_monitoring d t2 et now ∧
    ((_empty_result now).duration_seconds = 0 ∧ (_empty_result now).chars_per_minute = 0 ∧
      (_empty_result now).consistency = 0 ∧ (_empty_result now).avg_interval = 0 ∧
      (_empty_result now).total_keystrokes = 0 ∧ (_empty_result now).actual_chars = 0 ∧
      (_empty_result now).deletion_count = 0 ∧ (_empty_result now).deletion_ratio = 0 ∧
      (_empty_result now).modification_count = 0 ∧ (_empty_result now).burst_count = 0 ∧
      (_empty_result now).max_burst_speed = 0 ∧ (_empty_result now).hesitation_count = 0 ∧
      (_empty_result now).fluency_score = 0 ∧ (_empty_result now).keystroke_ratio = 0 ∧
      (_empty_result now).pause_pattern = ⟨0, 0, 0, "continuous"⟩ ∧
      (_empty_result now).text_rhythm = ⟨0, 0, 0, "balanced"⟩ ∧
      (_empty_result now).rhythm_type = "balanced" ∧
      (_empty_result now).fluency_level = "normal" ∧
      (_empty_result now).deletion_patterns = [] ∧
      (_empty_result now).modifications = [] ∧
      (_empty_result now).burst_segments = [] ∧
      (_empty_result now).hesitation_locations = [] ∧
      (_empty_result now).hesitations = [] ∧
      (_empty_result now).typing_trajectory = []) := by
  have hfields : (_empty_result now).duration_seconds = 0 ∧
      (_empty_result now).chars_per_minute = 0 ∧
      (_empty_result now).consistency = 0 ∧ (_empty_result now).avg_interval = 0 ∧
      (_empty_result now).total_keystrokes = 0 ∧ (_empty_result now).actual_chars = 0 ∧
      (_empty_result now).deletion_count = 0 ∧ (_empty_result now).deletion_ratio = 0 ∧
      (_empty_result now).modification_count = 0 ∧ (_empty_result now).burst_count = 0 ∧
      (_empty_result now).max_burst_speed = 0 ∧ (_empty_result now).hesitation_count = 0 ∧
      (_empty_result now).fluency_score = 0 ∧ (_empty_result now).keystroke_ratio = 0 ∧
      (_empty_result now).pause_pattern = ⟨0, 0, 0, "continuous"⟩ ∧
      (_empty_result now).text_rhythm = ⟨0, 0, 0, "balanced"⟩ ∧
      (_empty_result now).rhythm_type = "balanced" ∧
      (_empty_result now).fluency_level = "normal" ∧
      (_empty_result now).deletion_patterns = [] ∧
      (_empty_result now).modifications = [] ∧
      (_empty_result now).burst_segments = [] ∧
      (_empty_result now).hesitation_locations = [] ∧
      (_empty_result now).hesitations = [] ∧
      (_empty_result now).typing_trajectory = [] :=
    ⟨rfl, rfl, rfl, rfl, rfl, rfl, rfl, rfl, rfl, rfl, rfl, rfl, rfl, rfl, rfl, rfl,
      rfl, rfl, rfl, rfl, rfl, rfl, rfl, rfl⟩
  obtain ⟨es, m, st⟩ := d
  rcases h with h | h
  · subst h
    exact ⟨rfl, rfl, hfields⟩
  · simp only at h
    subst h
    cases es with
    | nil => exact ⟨rfl, rfl, hfields⟩
    | cons e rest => exact ⟨rfl, rfl, hfields⟩

/-- C1 witness: a concrete never-used session returns the empty Profile. -/
theorem C1_empty_profile_witness :
    (finish_monitoring ⟨[], true, some 5⟩ "abc" 7 "T").1 = _empty_result "T" :=
  (C1_empty_profile ⟨[], true, some 5⟩ "abc" "xyz" 7 "T" (Or.inl rfl)).1

/-- C2 counterexample: the hesitation record for the interval 10/3 carries the
duration already rounded to 3.33 inside the mapper (not the full-precision
10/3 the claim requires), and max_burst_speed for five 15 ms intervals is the
per-segment rounded 66.7, not the full-precision 5/(3/40) = 200/3. -/
theorem C2_counterexample :
    (_map_hesitations [10/3]).2.2 = [⟨0, 333/100, "medium"⟩] ∧
    (333 / 100 : ℚ) ≠ 10 / 3 ∧
    (_detect_bursts [3/200, 3/200, 3/200, 3/200, 3/200, 1]).2.2 = 667/10 ∧
    (667 / 10 : ℚ) ≠ 5 / (3/40) := by
  refine ⟨?_, by norm_num, ?_, by norm_num⟩
  · norm_num [_map_hesitations, hesitationScan, HESITATION_THRESHOLD, roundTo, pyRoundInt]
  · norm_num [_detect_bursts, burstScan, maxSpeed, BURST_INTERVAL_MAX, BURST_MIN_LENGTH,
      roundTo, pyRoundInt]

/-- C2 amended: burst avg_speed is rounded to 1 decimal inside the burst
detector and max_burst_speed is the maximum of the rounded speeds; hesitation
durations are rounded to 2 decimals inside the mapper; the text-rhythm
analyzer rounds its own averages; the remaining float fields — duration
(2dp), cpm (1dp), consistency (3dp), avg_interval (3dp), deletion_ratio
(3dp), fluency_score (3dp), keystroke_ratio (2dp), and max_burst_speed once
more (1dp, idempotently) — are rounded from full-precision values at
assembly. -/
theorem C2_rounding (intervals : List ℚ) (text : String) (events : List TypingEvent)
    (st et : ℚ) (ft now : String) :
    (_detect_bursts intervals).2.1 =
      ((detect_bursts_fullprec intervals).2.1).map roundSeg ∧
    (_detect_bursts intervals).2.2 =
      maxSpeed (((detect_bursts_fullprec intervals).2.1).map roundSeg) ∧
    (_map_hesitations intervals).2.2 = (hesitationScanFull 0 intervals).map roundHes ∧
    (_analyze_text_rhythm text).avg_sentence_length = roundTo 1 (avgSentenceLengthOf text) ∧
    (_analyze_text_rhythm text).punctuation_rate = roundTo 3 (punctuationRateOf text) ∧
    (_analyze events st ft et now).duration_seconds = roundTo 2 (et - st) ∧
    (_analyze events st ft et now).chars_per_minute =
      roundTo 1 (if et - st > 0 then (ft.length : ℚ) / (et - st) * 60 else 0) ∧
    (_analyze events st ft et now).avg_interval =
      roundTo 3 (if computeIntervals (events.filter isTypeEvent) = [] then 0
        else (computeIntervals (events.filter isTypeEvent)).sum /
          ((computeIntervals (events.filter isTypeEvent)).length : ℚ)) ∧
    (_analyze events st ft et now).deletion_ratio =
      roundTo 3 ((_analyze_deletions events).2.1) ∧
    (_analyze events st ft et now).consistency =
      roundTo 3 (_calculate_consistency (computeIntervals (events.filter isTypeEvent))) ∧
    (_analyze events st ft et now).fluency_score =
      roundTo 3 ((_calculate_fluency
        (_calculate_consistency (computeIntervals (events.filter isTypeEvent)))
        ((_analyze_deletions events).2.1)
        (_analyze_pauses (computeIntervals (events.filter isTypeEvent)))
        ((_map_hesitations (computeIntervals (events.filter isTypeEvent))).1)).1) ∧
    (_analyze events st ft et now).keystroke_ratio =
      roundTo 2 (if ft.length > 0 then (events.length : ℚ) / (ft.length : ℚ) else 0) ∧
    (_analyze events st ft et now).max_burst_speed =
      roundTo 1 ((_detect_bursts (computeIntervals (events.filter isTypeEvent))).2.2) := by
  have hseg : (_detect_bursts intervals).2.1 =
      ((detect_bursts_fullprec intervals).2.1).map roundSeg := by
    simp only [_detect_bursts, detect_bursts_fullprec]
    exact burstScan_eq_full_map intervals 0 0 0 0
  refine ⟨hseg, ?_, hesitationScan_eq_full_map intervals 0, rfl, rfl, rfl, rfl, rfl,
    rfl, rfl, rfl, rfl, rfl⟩
  show maxSpeed (burstScan [] 0 0 0 0 intervals) = _
  rw [burstScan_eq_full_map]
  rfl

/-- C3 counterexample: a log of three trailing backspaces emits no pattern
record at all, although the claim requires a consecutive record of length 3
for a run reaching the end of the log. -/
theorem C3_counterexample :
    (_analyze_deletions [⟨"backspace", "", 0⟩, ⟨"backspace", "", 1⟩,
        ⟨"backspace", "", 2⟩]).2.2 = [] ∧
    ([] : List DeletionPattern) ≠ [⟨"consecutive", 3⟩] :=
  ⟨by decide, by decide⟩

/-- C3 amended: the scan over the full unfiltered log emits one consecutive
record per run of backspace/delete events of length at least 3 that is closed
by a later non-deletion event; a run still open at the end of the log is
never emitted, whatever its length, and a closed run of length 2 is below the
threshold. -/
theorem C3_deletion_runs (events : List TypingEvent) :
    (_analyze_deletions events).2.2 =
      ((closedDeletionRuns 0 events).filter (fun n => decide (3 ≤ n))).map
        (fun n => (⟨"consecutive", n⟩ : DeletionPattern)) ∧
    (_analyze_deletions [⟨"type", "a", 0⟩, ⟨"backspace", "", 1⟩, ⟨"backspace", "", 2⟩,
        ⟨"backspace", "", 3⟩, ⟨"type", "b", 4⟩]).2.2 = [⟨"consecutive", 3⟩] ∧
    (_analyze_deletions [⟨"backspace", "", 0⟩, ⟨"backspace", "", 1⟩]).2.2 = [] := by
  refine ⟨?_, by decide, by decide⟩
  simpa using deletionScan_eq_closedRuns events [] 0

/-- C4 counterexample: two finish_monitoring runs over the identical
(event log, start, end, final_text) tuple but different wall-clock readings
return different Profiles — the timestamp field records the clock. -/
theorem C4_counterexample :
    (finish_monitoring ⟨[⟨"type", "a", 0⟩], true, some 1⟩ "a" 2 "t1").1 ≠
      (finish_monitoring ⟨[⟨"type", "a", 0⟩], true, some 1⟩ "a" 2 "t2").1 := by
  intro h
  have h2 := congrArg Profile.timestamp h
  have e1 : (finish_monitoring ⟨[⟨"type", "a", 0⟩], true, some 1⟩ "a" 2 "t1").1.timestamp
      = "t1" := rfl
  have e2 : (finish_monitoring ⟨[⟨"type", "a", 0⟩], true, some 1⟩ "a" 2 "t2").1.timestamp
      = "t2" := rfl
  rw [e1, e2] at h2
  exact absurd h2 (by decide)

/-- C4 amended: every Profile field other than timestamp is a pure function
of (event log, start timestamp, end timestamp, final_text); the timestamp
field records the ambient wall-clock at analysis time. -/
theorem C4_determinism (d : RhythmDetector) (ft : String) (et : ℚ) (now1 now2 : String) :
    stripTimestamp (finish_monitoring d ft et now1).1 =
      stripTimestamp (finish_monitoring d ft et now2).1 ∧
    (finish_monitoring d ft et now1).1.timestamp = now1 := by
  obtain ⟨es, m, st⟩ := d
  cases es with
  | nil => exact ⟨rfl, rfl⟩
  | cons e rest =>
    cases st with
    | none => exact ⟨rfl, rfl⟩
    | some s =>
      by_cases hs : s = 0
      · simp only [finish_monitoring, hs, if_pos]
        exact ⟨rfl, rfl⟩
      · simp only [finish_monitoring, if_neg hs]
        exact ⟨rfl, rfl⟩

/-- C5: the consistency score is 0 for fewer than 2 intervals or zero mean,
otherwise clamp(1 - cv/2, 0, 1) with cv the population standard deviation
over the mean, and it always lies in the interval from 0 to 1. -/
theorem C5_consistency (intervals : List ℚ) :
    (intervals.length < 2 → _calculate_consistency intervals = 0) ∧
    (2 ≤ intervals.length → intervals.sum / (intervals.length : ℚ) = 0 →
      _calculate_consistency intervals = 0) ∧
    (2 ≤ intervals.length → intervals.sum / (intervals.length : ℚ) ≠ 0 →
      _calculate_consistency intervals =
        max 0 (min 1 (1 -
          Real.sqrt ((((intervals.map
              (fun x => (x - intervals.sum / (intervals.length : ℚ)) ^ 2)).sum /
              (intervals.length : ℚ) : ℚ) : ℝ)) /
            ((intervals.sum / (intervals.length : ℚ) : ℚ) : ℝ) / 2))) ∧
    (0 ≤ _calculate_consistency intervals ∧ _calculate_consistency intervals ≤ 1) := by
  refine ⟨fun h => by simp [_calculate_consistency, h], ?_, ?_, ?_⟩
  · intro h2 hm
    simp [_calculate_consistency, Nat.not_lt.mpr h2, hm]
  · intro h2 hm
    simp [_calculate_consistency, Nat.not_lt.mpr h2, hm]
  · by_cases h2 : intervals.length < 2
    · simp [_calculate_consistency, h2]
    · by_cases hm : intervals.sum / (intervals.length : ℚ) = 0
      · simp [_calculate_consistency, h2, hm]
      · have hres : _calculate_consistency intervals =
            max 0 (min 1 (1 -
              Real.sqrt ((((intervals.map
                  (fun x => (x - intervals.sum / (intervals.length : ℚ)) ^ 2)).sum /
                  (intervals.length : ℚ) : ℚ) : ℝ)) /
                ((intervals.sum / (intervals.length : ℚ) : ℚ) : ℝ) / 2)) := by
          simp [_calculate_consistency, h2, hm]
        rw [hres]
        exact ⟨le_max_left _ _, max_le (by norm_num) (min_le_left _ _)⟩

/-- C5 witness: a single interval yields consistency 0, inside the bounds. -/
theorem C5_consistency_witness :
    _calculate_consistency [(1 : ℚ)] = 0 ∧ 0 ≤ _calculate_consistency [(1 : ℚ)] :=
  ⟨(C5_consistency [1]).1 (by norm_num), ((C5_consistency [1]).2.2.2).1⟩

/-- C6: pause buckets are short [2,5), medium [5,15), long [15,∞) (intervals
below 2 fall into no bucket) and the pattern is chosen by strict priority
long, medium, short, else continuous; the intervals 16 and 1 classify as
contemplative. -/
theorem C6_pauses (intervals : List ℚ) :
    (_analyze_pauses intervals).short_pauses =
      intervals.countP (fun i => decide (2 ≤ i ∧ i < 5)) ∧
    (_analyze_pauses intervals).medium_pauses =
      intervals.countP (fun i => decide (5 ≤ i ∧ i < 15)) ∧
    (_analyze_pauses intervals).long_pauses =
      intervals.countP (fun i => decide (15 ≤ i)) ∧
    ((∃ i ∈ intervals, 15 ≤ i) → (_analyze_pauses intervals).pattern = "contemplative") ∧
    ((∀ i ∈ intervals, ¬15 ≤ i) → (∃ i ∈ intervals, 5 ≤ i ∧ i < 15) →
      (_analyze_pauses intervals).pattern = "thoughtful") ∧
    ((∀ i ∈ intervals, ¬15 ≤ i) → (∀ i ∈ intervals, ¬(5 ≤ i ∧ i < 15)) →
      (∃ i ∈ intervals, 2 ≤ i ∧ i < 5) → (_analyze_pauses intervals).pattern = "choppy") ∧
    ((∀ i ∈ intervals, ¬2 ≤ i) → (_analyze_pauses intervals).pattern = "continuous") ∧
    _analyze_pauses [16, 1] = ⟨0, 0, 1, "contemplative"⟩ := by
  refine ⟨rfl, rfl, rfl, ?_, ?_, ?_, ?_, by decide⟩
  · intro hlong
    simp [_analyze_pauses, LONG_PAUSE_MIN, MEDIUM_PAUSE_MIN, MEDIUM_PAUSE_MAX,
      SHORT_PAUSE_MIN, SHORT_PAUSE_MAX, hlong]
  · intro hnolong hmed
    have h1 : ¬∃ a ∈ intervals, (15 : ℚ) ≤ a := by
      rintro ⟨a, ha, h15⟩
      exact hnolong a ha h15
    simp [_analyze_pauses, LONG_PAUSE_MIN, MEDIUM_PAUSE_MIN, MEDIUM_PAUSE_MAX,
      SHORT_PAUSE_MIN, SHORT_PAUSE_MAX, h1, hmed]
  · intro hnolong hnomed hshort
    have h1 : ¬∃ a ∈ intervals, (15 : ℚ) ≤ a := by
      rintro ⟨a, ha, h15⟩
      exact hnolong a ha h15
    have h2 : ¬∃ a ∈ intervals, (5 : ℚ) ≤ a ∧ a < 15 := by
      rintro ⟨a, ha, hm⟩
      exact hnomed a ha hm
    simp [_analyze_pauses, LONG_PAUSE_MIN, MEDIUM_PAUSE_MIN, MEDIUM_PAUSE_MAX,
      SHORT_PAUSE_MIN, SHORT_PAUSE_MAX, h1, h2, hshort]
  · intro hnone
    have h1 : ¬∃ a ∈ intervals, (15 : ℚ) ≤ a := by
      rintro ⟨a, ha, h15⟩
      exact hnone a ha (by linarith)
    have h2 : ¬∃ a ∈ intervals, (5 : ℚ) ≤ a ∧ a < 15 := by
      rintro ⟨a, ha, h5, _⟩
      exact hnone a ha (by linarith)
    have h3 : ¬∃ a ∈ intervals, (2 : ℚ) ≤ a ∧ a < 5 := by
      rintro ⟨a, ha, h2a, _⟩
      exact hnone a ha h2a
    simp [_analyze_pauses, LONG_PAUSE_MIN, MEDIUM_PAUSE_MIN, MEDIUM_PAUSE_MAX,
      SHORT_PAUSE_MIN, SHORT_PAUSE_MAX, h1, h2, h3]

/-- C6 witness: the intervals 16 and 1 classify as contemplative. -/
theorem C6_pauses_witness : (_analyze_pauses [(16 : ℚ), 1]).pattern = "contemplative" :=
  (C6_pauses [16, 1]).2.2.2.1 ⟨16, by norm_num, by norm_num⟩

/-- C7 counterexample: five 30 ms intervals then a gap emit a segment whose
avg_speed is 33.3 — the detector rounds to 1 decimal at emission — not the
full-precision 5/(3/20) = 100/3 the claim states. -/
theorem C7_counterexample :
    (_detect_bursts [3/100, 3/100, 3/100, 3/100, 3/100, 1]).2.1 = [⟨0, 5, 333/10⟩] ∧
    (333 / 10 : ℚ) ≠ 5 / (3/20) := by
  refine ⟨?_, by norm_num⟩
  norm_num [_detect_bursts, burstScan, BURST_INTERVAL_MAX, BURST_MIN_LENGTH, roundTo,
    pyRoundInt]

/-- C7 amended: the burst walk emits only segments of length at least 5,
including a trailing open burst; burst_count is the number of segments and
max_burst_speed their maximum; each emitted avg_speed is the full-precision
length/cumulative_time (0 when the time is 0) rounded to 1 decimal place; the
two concrete example interval sequences behave as the claim states. -/
theorem C7_bursts (intervals : List ℚ) :
    (_detect_bursts intervals).1 = (_detect_bursts intervals).2.1.length ∧
    (∀ s ∈ (_detect_bursts intervals).2.1, 5 ≤ s.length) ∧
    (_detect_bursts intervals).2.1 =
      ((detect_bursts_fullprec intervals).2.1).map roundSeg ∧
    (_detect_bursts intervals).2.2 =
      maxSpeed (((detect_bursts_fullprec intervals).2.1).map roundSeg) ∧
    (_detect_bursts [1/10, 1/10, 1/10, 1/10, 1/10, 1]).2.1 = [⟨0, 5, 10⟩] ∧
    (_detect_bursts [1/10, 1/10, 1/10, 1/10, 1/10]).1 = 1 := by
  have hseg : (_detect_bursts intervals).2.1 =
      ((detect_bursts_fullprec intervals).2.1).map roundSeg := by
    simp only [_detect_bursts, detect_bursts_fullprec]
    exact burstScan_eq_full_map intervals 0 0 0 0
  refine ⟨rfl, ?_, hseg, ?_, ?_, ?_⟩
  · intro s hs
    exact burstScan_min_length intervals 0 0 0 0 s hs
  · show maxSpeed (burstScan [] 0 0 0 0 intervals) = _
    rw [burstScan_eq_full_map]
    rfl
  · norm_num [_detect_bursts, burstScan, BURST_INTERVAL_MAX, BURST_MIN_LENGTH, roundTo,
      pyRoundInt]
  · norm_num [_detect_bursts, burstScan, BURST_INTERVAL_MAX, BURST_MIN_LENGTH, roundTo,
      pyRoundInt]

/-- C8: the fluency score is the stated weighted composite, lies between 0
and 1 whenever its inputs are in range, and the level bands are inclusive on
their lower bounds. -/
theorem C8_fluency (c : ℝ) (r : ℚ) (pp : PauseInfo) (hc : ℕ)
    (h0 : 0 ≤ c) (h1 : c ≤ 1) (hr : 0 ≤ r) :
    (_calculate_fluency c r pp hc).1 =
      0.30 * c + 0.30 * ((max 0 (1 - 2 * r) : ℚ) : ℝ) +
        0.20 * ((max 0 (1 - ((pp.short_pauses : ℚ) + 2 * (pp.medium_pauses : ℚ) +
          3 * (pp.long_pauses : ℚ)) / 10) : ℚ) : ℝ) +
        0.20 * ((max 0 (1 - (hc : ℚ) / 5) : ℚ) : ℝ) ∧
    0 ≤ (_calculate_fluency c r pp hc).1 ∧ (_calculate_fluency c r pp hc).1 ≤ 1 ∧
    (0.8 ≤ (_calculate_fluency c r pp hc).1 →
      (_calculate_fluency c r pp hc).2 = "very_fluent") ∧
    (0.6 ≤ (_calculate_fluency c r pp hc).1 → (_calculate_fluency c r pp hc).1 < 0.8 →
      (_calculate_fluency c r pp hc).2 = "fluent") ∧
    (0.4 ≤ (_calculate_fluency c r pp hc).1 → (_calculate_fluency c r pp hc).1 < 0.6 →
      (_calculate_fluency c r pp hc).2 = "normal") ∧
    ((_calculate_fluency c r pp hc).1 < 0.4 →
      (_calculate_fluency c r pp hc).2 = "hesitant") := by
  have hd2 : (1 - r * 2 : ℚ) = 1 - 2 * r := by ring
  have hp2 : ((pp.short_pauses : ℚ) + (pp.medium_pauses : ℚ) * 2 +
      (pp.long_pauses : ℚ) * 3) / 10 =
      ((pp.short_pauses : ℚ) + 2 * (pp.medium_pauses : ℚ) +
        3 * (pp.long_pauses : ℚ)) / 10 := by
    ring
  have hscore : (_calculate_fluency c r pp hc).1 =
      0.30 * c + 0.30 * ((max 0 (1 - 2 * r) : ℚ) : ℝ) +
        0.20 * ((max 0 (1 - ((pp.short_pauses : ℚ) + 2 * (pp.medium_pauses : ℚ) +
          3 * (pp.long_pauses : ℚ)) / 10) : ℚ) : ℝ) +
        0.20 * ((max 0 (1 - (hc : ℚ) / 5) : ℚ) : ℝ) := by
    show (0.30 * c + 0.30 * ((max 0 (1 - r * 2) : ℚ) : ℝ) +
        0.20 * ((max 0 (1 - ((pp.short_pauses : ℚ) + (pp.medium_pauses : ℚ) * 2 +
          (pp.long_pauses : ℚ) * 3) / 10) : ℚ) : ℝ) +
        0.20 * ((max 0 (1 - (hc : ℚ) / 5) : ℚ) : ℝ)) = _
    rw [hd2, hp2]
  have hdq0 : (0 : ℚ) ≤ max 0 (1 - 2 * r) := le_max_left _ _
  have hdq1 : max 0 (1 - 2 * r) ≤ (1 : ℚ) := max_le (by norm_num) (by nlinarith)
  have hpen0 : (0 : ℚ) ≤ ((pp.short_pauses : ℚ) + 2 * (pp.medium_pauses : ℚ) +
      3 * (pp.long_pauses : ℚ)) / 10 := by positivity
  have hpq0 : (0 : ℚ) ≤ max 0 (1 - ((pp.short_pauses : ℚ) + 2 * (pp.medium_pauses : ℚ) +
      3 * (pp.long_pauses : ℚ)) / 10) := le_max_left _ _
  have hpq1 : max 0 (1 - ((pp.short_pauses : ℚ) + 2 * (pp.medium_pauses : ℚ) +
      3 * (pp.long_pauses : ℚ)) / 10) ≤ (1 : ℚ) :=
    max_le (by norm_num) (by linarith)
  have hhq0' : (0 : ℚ) ≤ (hc : ℚ) / 5 := by positivity
  have hhq0 : (0 : ℚ) ≤ max 0 (1 - (hc : ℚ) / 5) := le_max_left _ _
  have hhq1 : max 0 (1 - (hc : ℚ) / 5) ≤ (1 : ℚ) := max_le (by norm_num) (by linarith)
  have hb : 0 ≤ (_calculate_fluency c r pp hc).1 ∧ (_calculate_fluency c r pp hc).1 ≤ 1 := by
    rw [hscore]
    constructor
    · have c1 : ((max 0 (1 - 2 * r) : ℚ) : ℝ) ≥ 0 := by exact_mod_cast hdq0
      have c2 : ((max 0 (1 - ((pp.short_pauses : ℚ) + 2 * (pp.medium_pauses : ℚ) +
          3 * (pp.long_pauses : ℚ)) / 10) : ℚ) : ℝ) ≥ 0 := by exact_mod_cast hpq0
      have c3 : ((max 0 (1 - (hc : ℚ) / 5) : ℚ) : ℝ) ≥ 0 := by exact_mod_cast hhq0
      nlinarith
    · have c1 : ((max 0 (1 - 2 * r) : ℚ) : ℝ) ≤ 1 := by exact_mod_cast hdq1
      have c1' : ((max 0 (1 - 2 * r) : ℚ) : ℝ) ≥ 0 := by exact_mod_cast hdq0
      have c2 : ((max 0 (1 - ((pp.short_pauses : ℚ) + 2 * (pp.medium_pauses : ℚ) +
          3 * (pp.long_pauses : ℚ)) / 10) : ℚ) : ℝ) ≤ 1 := by exact_mod_cast hpq1
      have c3 : ((max 0 (1 - (hc : ℚ) / 5) : ℚ) : ℝ) ≤ 1 := by exact_mod_cast hhq1
      nlinarith
  have hlevel : (_calculate_fluency c r pp hc).2 =
      if (_calculate_fluency c r pp hc).1 ≥ 0.8 then "very_fluent"
      else if (_calculate_fluency c r pp hc).1 ≥ 0.6 then "fluent"
      else if (_calculate_fluency c r pp hc).1 ≥ 0.4 then "normal"
      else "hesitant" := rfl
  refine ⟨hscore, hb.1, hb.2, ?_, ?_, ?_, ?_⟩
  · intro h8
    rw [hlevel, if_pos (by exact h8)]
  · intro h6 h8
    rw [hlevel, if_neg (by exact not_le.mpr h8), if_pos (by exact h6)]
  · intro h4 h6
    rw [hlevel, if_neg (by exact not_le.mpr (lt_trans h6 (by norm_num))),
      if_neg (by exact not_le.mpr h6), if_pos (by exact h4)]
  · intro h4
    rw [hlevel, if_neg (by exact not_le.mpr (lt_trans h4 (by norm_num))),
      if_neg (by exact not_le.mpr (lt_trans h4 (by norm_num))),
      if_neg (by exact not_le.mpr h4)]

/-- C8 witness: perfect components except consistency 1/3 give a score of
exactly 0.8, classified very_fluent — the band bound is inclusive. -/
theorem C8_fluency_witness :
    (_calculate_fluency (1/3 : ℝ) 0 ⟨0, 0, 0, "continuous"⟩ 0).2 = "very_fluent" := by
  have h := C8_fluency (1/3) 0 ⟨0, 0, 0, "continuous"⟩ 0 (by norm_num) (by norm_num) le_rfl
  apply h.2.2.2.1
  rw [h.1]
  norm_num

/-- C9: the rhythm type follows the three-band decision table on cpm with
exclusive band boundaries (cpm exactly 120 or 60 falls in the medium band),
and the analyzer feeds it cpm = actual_chars/duration*60 (0 for duration at
most 0), the consistency score, and the pause-pattern label. -/
theorem C9_rhythm (cpm : ℚ) (c : ℝ) (p : String) :
    (120 < cpm → 0.7 < c → p = "continuous" →
      _classify_rhythm_type cpm c p = "steady_fast") ∧
    (120 < cpm → 0.7 < c → p ≠ "continuous" →
      _classify_rhythm_type cpm c p = "burst_fast") ∧
    (120 < cpm → c ≤ 0.7 → _classify_rhythm_type cpm c p = "erratic_fast") ∧
    (cpm < 60 → 0.7 < c → _classify_rhythm_type cpm c p = "steady_slow") ∧
    (cpm < 60 → c ≤ 0.7 → (p = "thoughtful" ∨ p = "contemplative") →
      _classify_rhythm_type cpm c p = "hesitant") ∧
    (cpm < 60 → c ≤ 0.7 → ¬(p = "thoughtful" ∨ p = "contemplative") →
      _classify_rhythm_type cpm c p = "labored") ∧
    (60 ≤ cpm → cpm ≤ 120 → 0.7 < c → _classify_rhythm_type cpm c p = "fluid") ∧
    (60 ≤ cpm → cpm ≤ 120 → c ≤ 0.7 → p = "thoughtful" →
      _classify_rhythm_type cpm c p = "measured") ∧
    (60 ≤ cpm → cpm ≤ 120 → c ≤ 0.7 → p ≠ "thoughtful" →
      _classify_rhythm_type cpm c p = "uneven") ∧
    (∀ (events : List TypingEvent) (st : ℚ) (ft : String) (et : ℚ) (now : String),
      (_analyze events st ft et now).rhythm_type =
        _classify_rhythm_type
          (if et - st > 0 then (ft.length : ℚ) / (et - st) * 60 else 0)
          (_calculate_consistency (computeIntervals (events.filter isTypeEvent)))
          ((_analyze_pauses (computeIntervals (events.filter isTypeEvent))).pattern)) := by
  refine ⟨?_, ?_, ?_, ?_, ?_, ?_, ?_, ?_, ?_, fun events st ft et now => rfl⟩
  · intro hf hc hp
    simp [_classify_rhythm_type, hf, hc, hp]
  · intro hf hc hp
    simp [_classify_rhythm_type, hf, hc, hp]
  · intro hf hc
    simp [_classify_rhythm_type, hf, not_lt.mpr hc]
  · intro hs hc
    have hnf : ¬(120 < cpm) := by linarith
    simp [_classify_rhythm_type, hnf, hs, hc]
  · intro hs hc hp
    have hnf : ¬(120 < cpm) := by linarith
    simp [_classify_rhythm_type, hnf, hs, not_lt.mpr hc, hp]
  · intro hs hc hp
    have hnf : ¬(120 < cpm) := by linarith
    simp [_classify_rhythm_type, hnf, hs, not_lt.mpr hc, hp]
  · intro h60 h120 hc
    have hnf : ¬(120 < cpm) := not_lt.mpr h120
    have hns : ¬(cpm < 60) := not_lt.mpr h60
    simp [_classify_rhythm_type, hnf, hns, hc]
  · intro h60 h120 hc hp
    have hnf : ¬(120 < cpm) := not_lt.mpr h120
    have hns : ¬(cpm < 60) := not_lt.mpr h60
    simp [_classify_rhythm_type, hnf, hns, not_lt.mpr hc, hp]
  · intro h60 h120 hc hp
    have hnf : ¬(120 < cpm) := not_lt.mpr h120
    have hns : ¬(cpm < 60) := not_lt.mpr h60
    simp [_classify_rhythm_type, hnf, hns, not_lt.mpr hc, hp]

/-- C9 witness: cpm exactly 120 with low consistency and a continuous pause
pattern routes to the medium band and classifies uneven. -/
theorem C9_rhythm_witness : _classify_rhythm_type 120 0 "continuous" = "uneven" := by
  have h := C9_rhythm 120 0 "continuous"
  exact h.2.2.2.2.2.2.2.2.1 (by norm_num) (by norm_num) (by norm_num) (by decide)

/-- C10: finish_monitoring leaves the event log and start time unchanged and
only clears the monitoring flag; only start_monitoring resets them; a second
consecutive finish_monitoring on a non-empty started session returns the full
analysis over the same events with the new end time, not the empty default. -/
theorem C10_frame (d : RhythmDetector) (ft : String) (et : ℚ) (now : String) :
    ((finish_monitoring d ft et now).2.events = d.events ∧
      (finish_monitoring d ft et now).2.start_time = d.start_time ∧
      (finish_monitoring d ft et now).2.is_monitoring = false) ∧
    (∀ t : ℚ, (start_monitoring d t).events = [] ∧
      (start_monitoring d t).start_time = some t) ∧
    (∀ st : ℚ, d.events ≠ [] → d.start_time = some st → st ≠ 0 →
      ∀ (ft2 : String) (et2 : ℚ) (now2 : String),
        (finish_monitoring (finish_monitoring d ft et now).2 ft2 et2 now2).1 =
          _analyze d.events st ft2 et2 now2 ∧
        (finish_monitoring (finish_monitoring d ft et now).2 ft2 et2 now2).1 ≠
          _empty_result now2) := by
  obtain ⟨es, m, st0⟩ := d
  refine ⟨?_, fun t => ⟨rfl, rfl⟩, ?_⟩
  · cases es with
    | nil => exact ⟨rfl, rfl, rfl⟩
    | cons e rest =>
      cases st0 with
      | none => exact ⟨rfl, rfl, rfl⟩
      | some s =>
        by_cases hs : s = 0
        · simp [finish_monitoring, hs]
        · simp [finish_monitoring, if_neg hs]
  · intro st hne hst hs0 ft2 et2 now2
    cases es with
    | nil => exact absurd rfl hne
    | cons e rest =>
      simp only at hst
      subst hst
      have key : (finish_monitoring
          (finish_monitoring ⟨e :: rest, m, some st⟩ ft et now).2 ft2 et2 now2).1 =
          _analyze (e :: rest) st ft2 et2 now2 := by
        simp only [finish_monitoring, if_neg hs0]
      refine ⟨key, ?_⟩
      intro hcontra
      have hlen := congrArg Profile.total_keystrokes (key ▸ hcontra)
      have e1 : (_analyze (e :: rest) st ft2 et2 now2).total_keystrokes =
          rest.length + 1 := by
        simp [_analyze]
      have e2 : (_empty_result now2).total_keystrokes = 0 := rfl
      rw [e1, e2] at hlen
      omega

/-- C10 witness: a concrete second finish_monitoring call returns a full
analysis Profile, not the empty default. -/
theorem C10_frame_witness :
    (finish_monitoring (finish_monitoring ⟨[⟨"type", "a", 1⟩], true, some 1⟩ "a" 2 "T").2
        "b" 3 "U").1 ≠ _empty_result "U" := by
  have h := C10_frame ⟨[⟨"type", "a", 1⟩], true, some 1⟩ "a" 2 "T"
  exact (h.2.2 1 (by simp) rfl (by norm_num) "b" 3 "U").2
